import Mathlib

/-!
Verification of the LlamaChat conversation-persistence and streaming-generation
subsystem against its natural-language specification.

The definitions below are a shallow embedding of the TypeScript sources:
  * the chat storage service (`ChatStorage`, in `src/unnamed/part_007`):
    `getChatHistory`, `saveChatHistory`, `createChat`, `addMessage`,
    `deleteMessage`, `updateUserPrompt`, `getChat`, `deleteChat`,
    `updateChatTitle`, `setCurrentChat`;
  * the chat screen's send/stream logic (`src/src/screens/ChatScreen.tsx`):
    prompt-sequence construction, the token-streaming accumulator with its
    every-10th-token view update, and the completion / error branches of
    `handleSend`;
  * the generation call (`src/src/context/ModelContext.tsx`).

Modelling conventions:
  * A JavaScript object used as a string-keyed map (`history.chats`) is an
    insertion-ordered association list `List (String × Chat)`;
    `Object.keys` is `List.map Prod.fst`, `delete obj[k]` is a filter, and
    `obj[k] = v` replaces in place when the key exists, else appends.
  * `JSON.stringify` / `JSON.parse` are modelled at the JSON-value level by
    `encodeChatHistory` / `decodeChatHistory` over a JSON AST `JVal`;
    the key-value substrate (MMKV) stores the serialized blob, modelled as
    `Option JVal` (`none` = nothing stored).
  * A thrown `Error` is `Except.error`; an unguarded property access on a
    possibly-`undefined` value is the distinguished error `RepoError.typeError`.
  * Nondeterministic inputs of the source (`generateId()`, `Date.now()`,
    locale time strings) are explicit oracle parameters.
-/

namespace LlamaChat

/-- Message role, from `src/unnamed/part_001` (`'user' | 'assistant'`). -/
inductive Role where
  | user
  | assistant
  deriving DecidableEq, Repr

/-- Chat mode, from `src/unnamed/part_001` (`'conversation' | 'singleInteractive'`). -/
inductive ChatMode where
  | conversation
  | singleInteractive
  deriving DecidableEq, Repr

/-- `Message` record from `src/unnamed/part_001`; `timestamp` is integer millis. -/
structure Message where
  id : String
  role : Role
  content : String
  timestamp : Nat
  deriving DecidableEq, Repr

/-- `Chat` record from `src/unnamed/part_001`. `messages` index 0 is the newest. -/
structure Chat where
  id : String
  title : String
  messages : List Message
  mode : ChatMode
  userPrompt : String
  createdAt : Nat
  updatedAt : Nat
  modelName : String
  deriving DecidableEq, Repr

/-- `ChatHistory` document root from `src/unnamed/part_001`: `chats` is a
string-keyed object (insertion-ordered association list here). -/
structure ChatHistory where
  chats : List (String × Chat)
  currentChatId : Option String
  deriving DecidableEq, Repr

/-- Errors raised by repository operations: `notFound` embeds the explicit
`throw new Error('Chat with id ... not found')`, `typeError` embeds the
JavaScript `TypeError` from accessing a property of `undefined`. -/
inductive RepoError where
  | notFound (chatId : String)
  | typeError
  deriving DecidableEq, Repr

/-- `history.chats[chatId]` — exact string-key lookup in the object. -/
def findChat (h : ChatHistory) (chatId : String) : Option Chat :=
  (h.chats.find? (fun p => p.1 = chatId)).map Prod.snd

/-- In-place mutation of the chat stored under `chatId` (JavaScript mutates the
looked-up object, which is shared with the document; key order is unchanged). -/
def setChatEntry (chats : List (String × Chat)) (chatId : String) (c : Chat) :
    List (String × Chat) :=
  chats.map (fun p => if p.1 = chatId then (p.1, c) else p)

/-- `obj[k] = v` on a JavaScript object: replace in place if the key exists,
otherwise append (insertion order). -/
def objInsert (chats : List (String × Chat)) (chatId : String) (c : Chat) :
    List (String × Chat) :=
  if chats.any (fun p => p.1 = chatId) then setChatEntry chats chatId c
  else chats ++ [(chatId, c)]

/-- The empty history `{chats: {}, currentChatId: null}`. -/
def emptyHistory : ChatHistory := { chats := [], currentChatId := none }

/-- The chat value produced by one `addMessage` body (`src/unnamed/part_007`
lines 646-658): `unshift` the new message, bump `updatedAt`, and re-derive
the title when `!chat.userPrompt && role === 'user' && chat.messages.length <= 2`
(length measured after the unshift). -/
def addedChat (chat : Chat) (role : Role) (content : String)
    (newId : String) (now : Nat) : Chat :=
  let message : Message :=
    { id := newId, role := role, content := content, timestamp := now }
  let messages := message :: chat.messages
  { chat with
    messages := messages
    updatedAt := now
    title :=
      if chat.userPrompt = "" ∧ role = Role.user ∧ messages.length ≤ 2 then content
      else chat.title }

/-- `addMessage(chatId, role, content)` from `src/unnamed/part_007` lines
638-662. Throws when the chat is absent; `generateId()` and `Date.now()` are
the oracle parameters `newId` and `now`. Returns the created message and the
mutated (and then saved) document. -/
def addMessage (h : ChatHistory) (chatId : String) (role : Role) (content : String)
    (newId : String) (now : Nat) : Except RepoError (Message × ChatHistory) :=
  match findChat h chatId with
  | none => .error (.notFound chatId)
  | some chat =>
    .ok ({ id := newId, role := role, content := content, timestamp := now },
         { h with chats := setChatEntry h.chats chatId (addedChat chat role content newId now) })

/-- `deleteMessage(chatId, messageId)` from `src/unnamed/part_007` lines
617-626: throws when the chat is absent, otherwise filters the message out. -/
def deleteMessage (h : ChatHistory) (chatId messageId : String) :
    Except RepoError ChatHistory :=
  match findChat h chatId with
  | none => .error (.notFound chatId)
  | some chat =>
    .ok { h with
          chats := setChatEntry h.chats chatId
            { chat with messages := chat.messages.filter (fun m => m.id ≠ messageId) } }

/-- `updateUserPrompt(chatId, userPrompt)` from `src/unnamed/part_007` lines
628-635: no existence check — `chat.userPrompt = userPrompt` on a missing chat
is a property write on `undefined`, i.e. a `TypeError`. -/
def updateUserPrompt (h : ChatHistory) (chatId userPrompt : String) :
    Except RepoError (Chat × ChatHistory) :=
  match findChat h chatId with
  | none => .error .typeError
  | some chat =>
    let chat := { chat with userPrompt := userPrompt, title := userPrompt }
    .ok (chat, { h with chats := setChatEntry h.chats chatId chat })

/-- `getChat(chatId)` from `src/unnamed/part_007` lines 665-668. -/
def getChat (h : ChatHistory) (chatId : String) : Option Chat :=
  findChat h chatId

/-- `createChat(modelName, mode)` from `src/unnamed/part_007` lines 594-615.
`chatId`, `now` and the locale time string are oracle parameters. -/
def createChat (h : ChatHistory) (modelName : String) (mode : ChatMode)
    (chatId : String) (now : Nat) (timeStr : String) : Chat × ChatHistory :=
  let newChat : Chat :=
    { id := chatId
      title := "New Conversation " ++ timeStr
      messages := []
      mode := mode
      userPrompt := ""
      createdAt := now
      updatedAt := now
      modelName := modelName }
  (newChat, { chats := objInsert h.chats chatId newChat, currentChatId := some chatId })

/-- `deleteChat(chatId)` from `src/unnamed/part_007` lines 671-685: no-op when
the chat is absent; otherwise remove the entry, and when the deleted chat was
current, reassign `currentChatId` to `Object.keys(history.chats)[0]` of the
remaining object (its first key in insertion order) or `null` if none remain. -/
def deleteChat (h : ChatHistory) (chatId : String) : ChatHistory :=
  match findChat h chatId with
  | none => h
  | some _ =>
    let chats := h.chats.filter (fun p => p.1 ≠ chatId)
    let currentChatId :=
      if h.currentChatId = some chatId then
        match chats with
        | [] => none
        | p :: _ => some p.1
      else h.currentChatId
    { chats := chats, currentChatId := currentChatId }

/-- `updateChatTitle(chatId, title)` from `src/unnamed/part_007` lines 688-695:
guarded, silently a no-op when the chat is absent. -/
def updateChatTitle (h : ChatHistory) (chatId title : String) : ChatHistory :=
  match findChat h chatId with
  | none => h
  | some chat => { h with chats := setChatEntry h.chats chatId { chat with title := title } }

/-- `setCurrentChat(chatId)` from `src/unnamed/part_007` lines 698-705:
guarded, silently a no-op when the chat is absent. -/
def setCurrentChat (h : ChatHistory) (chatId : String) : ChatHistory :=
  match findChat h chatId with
  | none => h
  | some _ => { h with currentChatId := some chatId }

/-- The Data-Model invariant on the document root: `currentChatId`, if set,
references an existing key of `chats`. -/
def currentOk (h : ChatHistory) : Prop :=
  match h.currentChatId with
  | none => True
  | some cid => (findChat h cid).isSome

instance (h : ChatHistory) : Decidable (currentOk h) := by
  unfold currentOk
  cases h.currentChatId <;> infer_instance

/-! ## The persistent store: JSON serialization

`saveChatHistory` runs `storage.set(KEY, JSON.stringify(history))` and
`getChatHistory` runs `JSON.parse(storage.getString(KEY))` with fallback to the
empty document (`src/unnamed/part_007` lines 574-591). Stringify/parse are
modelled at the JSON-value level: `JVal` is the JSON AST the document
serializes to, and the store keeps the blob as `Option JVal`. -/

/-- JSON values reachable from a `ChatHistory` document (no booleans occur). -/
inductive JVal where
  | jnull
  | jstr (s : String)
  | jnum (n : Nat)
  | jarr (vs : List JVal)
  | jobj (fields : List (String × JVal))
  deriving Repr

/-- Field lookup on a JSON object value. -/
def jget (j : JVal) (key : String) : Option JVal :=
  match j with
  | .jobj fields => (fields.find? (fun p => p.1 = key)).map Prod.snd
  | _ => none

def roleString : Role → String
  | .user => "user"
  | .assistant => "assistant"

def modeString : ChatMode → String
  | .conversation => "conversation"
  | .singleInteractive => "singleInteractive"

def encodeMessage (m : Message) : JVal :=
  .jobj [("id", .jstr m.id),
         ("role", .jstr (roleString m.role)),
         ("content", .jstr m.content),
         ("timestamp", .jnum m.timestamp)]

def encodeChat (c : Chat) : JVal :=
  .jobj [("id", .jstr c.id),
         ("title", .jstr c.title),
         ("messages", .jarr (c.messages.map encodeMessage)),
         ("mode", .jstr (modeString c.mode)),
         ("userPrompt", .jstr c.userPrompt),
         ("createdAt", .jnum c.createdAt),
         ("updatedAt", .jnum c.updatedAt),
         ("modelName", .jstr c.modelName)]

def encodeChatHistory (h : ChatHistory) : JVal :=
  .jobj [("chats", .jobj (h.chats.map (fun p => (p.1, encodeChat p.2)))),
         ("currentChatId",
          match h.currentChatId with
          | none => .jnull
          | some s => .jstr s)]

def decodeStr : JVal → Option String
  | .jstr s => some s
  | _ => none

def decodeNat : JVal → Option Nat
  | .jnum n => some n
  | _ => none

def decodeRole : JVal → Option Role
  | .jstr "user" => some .user
  | .jstr "assistant" => some .assistant
  | _ => none

def decodeMode : JVal → Option ChatMode
  | .jstr "conversation" => some .conversation
  | .jstr "singleInteractive" => some .singleInteractive
  | _ => none

def decodeMessage (j : JVal) : Option Message := do
  let id ← jget j "id" >>= decodeStr
  let role ← jget j "role" >>= decodeRole
  let content ← jget j "content" >>= decodeStr
  let timestamp ← jget j "timestamp" >>= decodeNat
  pure { id := id, role := role, content := content, timestamp := timestamp }

def decodeMessages : List JVal → Option (List Message)
  | [] => some []
  | j :: js =>
    match decodeMessage j, decodeMessages js with
    | some m, some ms => some (m :: ms)
    | _, _ => none

def decodeChat (j : JVal) : Option Chat := do
  let id ← jget j "id" >>= decodeStr
  let title ← jget j "title" >>= decodeStr
  let messages ←
    match jget j "messages" with
    | some (.jarr vs) => decodeMessages vs
    | _ => none
  let mode ← jget j "mode" >>= decodeMode
  let userPrompt ← jget j "userPrompt" >>= decodeStr
  let createdAt ← jget j "createdAt" >>= decodeNat
  let updatedAt ← jget j "updatedAt" >>= decodeNat
  let modelName ← jget j "modelName" >>= decodeStr
  pure { id := id, title := title, messages := messages, mode := mode,
         userPrompt := userPrompt, createdAt := createdAt, updatedAt := updatedAt,
         modelName := modelName }

def decodeChatEntries : List (String × JVal) → Option (List (String × Chat))
  | [] => some []
  | (k, j) :: rest =>
    match decodeChat j, decodeChatEntries rest with
    | some c, some cs => some ((k, c) :: cs)
    | _, _ => none

def decodeChatHistory (j : JVal) : Option ChatHistory := do
  let chats ←
    match jget j "chats" with
    | some (.jobj fields) => decodeChatEntries fields
    | _ => none
  let currentChatId ←
    match jget j "currentChatId" with
    | some .jnull => some none
    | some (.jstr s) => some (some s)
    | _ => none
  pure { chats := chats, currentChatId := currentChatId }

/-- The store: `none` when nothing is stored under the chat-history key,
`some j` when the serialized document `j` is stored. -/
def getChatHistory : Option JVal → ChatHistory
  | none => emptyHistory
  | some j => (decodeChatHistory j).getD emptyHistory

def saveChatHistory (h : ChatHistory) : Option JVal :=
  some (encodeChatHistory h)

/-- Store-level `deleteMessage`: load, mutate, save; the `throw` fires before
any `saveChatHistory` call, so on error the stored blob is untouched. -/
def deleteMessageStore (store : Option JVal) (chatId messageId : String) :
    Except RepoError Unit × Option JVal :=
  match deleteMessage (getChatHistory store) chatId messageId with
  | .error e => (.error e, store)
  | .ok h' => (.ok (), saveChatHistory h')

/-! ## The chat screen: prompt building, streaming, and `handleSend`

Embedded from `src/src/screens/ChatScreen.tsx`. React state updates
(`setChat`) are explicit transformations of the in-memory message list
(the view-state); generation is driven by the token stream the engine
delivers to the `onToken` callback and the final settlement of the
`generateResponse` promise. -/

/-- Prompt roles: the formatted messages use `'system'`, `'user'` and the
roles of stored messages. -/
inductive PromptRole where
  | system
  | user
  | assistant
  deriving DecidableEq, Repr

structure PromptMessage where
  role : PromptRole
  content : String
  deriving DecidableEq, Repr

def promptRole : Role → PromptRole
  | .user => .user
  | .assistant => .assistant

/-- The `formattedMessages` construction in `handleSend`
(`src/src/screens/ChatScreen.tsx` lines 96-124): a system entry, then either
the full prior history oldest-first (`chat.messages.toReversed()`) in
`conversation` mode or the single `chat.userPrompt` user entry otherwise, then
the new user message. -/
def formatMessages (mode : ChatMode) (systemPrompt : String) (chat : Chat)
    (userMessage : String) : List PromptMessage :=
  { role := .system, content := systemPrompt } ::
  ((match mode with
    | .conversation =>
      chat.messages.reverse.map (fun m => { role := promptRole m.role, content := m.content })
    | .singleInteractive =>
      [{ role := .user, content := chat.userPrompt }]) ++
   [{ role := .user, content := userMessage }])

/-- The local state of the streaming closure in `handleSend`
(`src/src/screens/ChatScreen.tsx` lines 126-157): the accumulator
`streamedContent`, the counter `streamedCount`, and the contents pushed to the
view-state by `setChat` (one entry per visible update, oldest first). -/
structure StreamState where
  streamedContent : String
  streamedCount : Nat
  viewUpdates : List String
  deriving DecidableEq, Repr

/-- One `onToken` callback invocation: always append the token and bump the
counter; only every 10th invocation reaches `setChat`
(`if (streamedCount % 10 !== 0) return;`). -/
def onTokenStep (st : StreamState) (token : String) : StreamState :=
  let streamedContent := st.streamedContent ++ token
  let streamedCount := st.streamedCount + 1
  { streamedContent := streamedContent
    streamedCount := streamedCount
    viewUpdates :=
      if streamedCount % 10 ≠ 0 then st.viewUpdates
      else st.viewUpdates ++ [streamedContent] }

/-- The whole token stream of one generation run, folded from the initial
`streamedContent = ''`, `streamedCount = 0` state. -/
def runStream (tokens : List String) : StreamState :=
  tokens.foldl onTokenStep { streamedContent := "", streamedCount := 0, viewUpdates := [] }

/-- The transient streaming placeholder's fixed id. -/
def streamingId : String := "streaming_id"

/-- One visible `setChat` update during streaming
(`src/src/screens/ChatScreen.tsx` lines 136-156): build the placeholder with
the accumulated content; insert it when the newest message is a user message
(or the list is empty), otherwise replace the newest message. -/
def applyStreamUpdate (view : List Message) (streamedContent : String)
    (now : Nat) : List Message :=
  let streamMessage : Message :=
    { id := streamingId, role := .assistant, content := streamedContent, timestamp := now }
  match view with
  | [] => [streamMessage]
  | m0 :: rest =>
    if m0.role = Role.user then streamMessage :: m0 :: rest else streamMessage :: rest

def applyStreamUpdates (view : List Message) (contents : List String)
    (now : Nat) : List Message :=
  contents.foldl (fun v c => applyStreamUpdate v c now) view

/-- One generation run as observed by `handleSend`: the tokens delivered to
`onToken` before the run stopped, and the settlement of the
`generateResponse` promise. Modelled from the spec: the engine
(`llama.rn`, external collaborator, interface in spec §6) resolves
`completion` with the text generated so far after a `stopCompletion` request —
per §4.3 a cancelled `generate` "resolves the call promptly without throwing",
so a cancelled run is `result = .ok partialSoFar`, a failed run is
`result = .error ()` (the rethrown engine error). -/
structure GenRun where
  tokens : List String
  result : Except Unit String

/-- The exact generic reply persisted by the catch block of `handleSend`. -/
def errorReplyText : String := "Sorry, an error occurred while generating a response."

/-- JavaScript `String.prototype.trim`: strip whitespace from both ends
(executable character-list model of the `.trim()` call in `handleSend`). -/
def jsTrim (s : String) : String :=
  ⟨((s.data.dropWhile Char.isWhitespace).reverse.dropWhile Char.isWhitespace).reverse⟩

/-- `handleSend` from `src/src/screens/ChatScreen.tsx` lines 76-178, for one
generation run `run` against the loaded chat `chat` (the React state snapshot
captured by the closure). Returns the stored document and the in-memory
view-state message list after the run settles:
  * persist the user message, prepend it to the view;
  * stream: every 10th token pushes a placeholder update into the view;
  * on a resolved promise, persist `response.trim()` as the assistant message,
    prepend it to the view with the placeholder filtered out;
  * on a rejected promise, persist the generic error reply — the catch block
    does not touch the view.
`uid`/`aid` are the generated message ids, `t1`/`tns`/`t2` the `Date.now()`
oracle values. -/
def handleSendRun (h : ChatHistory) (view : List Message) (chatId : String)
    (userMessage : String) (run : GenRun) (uid aid : String)
    (t1 tns t2 : Nat) : Except RepoError (ChatHistory × List Message) :=
  match addMessage h chatId .user userMessage uid t1 with
  | .error e => .error e
  | .ok (userMsg, h1) =>
    let view1 := userMsg :: view
    let st := runStream run.tokens
    let view2 := applyStreamUpdates view1 st.viewUpdates tns
    match run.result with
    | .ok text =>
      match addMessage h1 chatId .assistant (jsTrim text) aid t2 with
      | .error e => .error e
      | .ok (assistantMsg, h2) =>
        .ok (h2, assistantMsg :: view2.filter (fun m => m.id ≠ streamingId))
    | .error _ =>
      match addMessage h1 chatId .assistant errorReplyText aid t2 with
      | .error e => .error e
      | .ok (_, h2) => .ok (h2, view2)

/-! ## Call sequences and concrete fixtures -/

/-- One `addMessage` call's arguments: role, content, generated id, `Date.now()`. -/
def callMessage : Role × String × String × Nat → Message
  | (r, content, i, t) => { id := i, role := r, content := content, timestamp := t }

/-- A sequence of `addMessage` calls against one chat, stopping at the first
thrown error. -/
def addMessageSeq (chatId : String) :
    ChatHistory → List (Role × String × String × Nat) → Except RepoError ChatHistory
  | h, [] => .ok h
  | h, (r, content, i, t) :: rest =>
    match addMessage h chatId r content i t with
    | .error e => .error e
    | .ok (_, h') => addMessageSeq chatId h' rest

/-- A fresh conversation-mode chat as `createChat` produces it. -/
def demoConvChat : Chat :=
  (createChat emptyHistory "m1" ChatMode.conversation "c1" 0 "10:00").1

/-- The stored document right after that `createChat`. -/
def demoConvHistory : ChatHistory :=
  (createChat emptyHistory "m1" ChatMode.conversation "c1" 0 "10:00").2

/-- A single-interactive chat with a configured instruction and two prior turns. -/
def demoSingleChat : Chat :=
  { id := "c2"
    title := "Translate to French"
    messages :=
      [{ id := "p2", role := Role.assistant, content := "Bonjour", timestamp := 2 },
       { id := "p1", role := Role.user, content := "Hello", timestamp := 1 }]
    mode := ChatMode.singleInteractive
    userPrompt := "Translate to French"
    createdAt := 0
    updatedAt := 2
    modelName := "m1" }

/-- Three `addMessage` calls carrying identical millisecond timestamps. -/
def demoCalls : List (Role × String × String × Nat) :=
  [(Role.user, "Hi", "i1", 7), (Role.assistant, "Hello!", "i2", 7), (Role.user, "Again", "i3", 7)]

/-- A two-chat document whose current chat is the first one. -/
def demoTwoChats : ChatHistory :=
  { chats :=
      [("c1", demoConvChat),
       ("c2", demoSingleChat)]
    currentChatId := some "c1" }

/-- Ten one-character tokens: enough for one visible streaming update. -/
def demoTokens : List String :=
  ["H", "e", "l", "l", "o", " ", "t", "h", "e", "r"]

/-! ## Serialization round-trip lemmas -/

theorem decodeRole_roleString (r : Role) :
    decodeRole (.jstr (roleString r)) = some r := by
  cases r <;> rfl

theorem decodeMode_modeString (mo : ChatMode) :
    decodeMode (.jstr (modeString mo)) = some mo := by
  cases mo <;> rfl

theorem decodeMessage_encodeMessage (m : Message) :
    decodeMessage (encodeMessage m) = some m := by
  cases m with
  | mk id role content timestamp => cases role <;> rfl

theorem decodeMessages_encode (ms : List Message) :
    decodeMessages (ms.map encodeMessage) = some ms := by
  induction ms with
  | nil => rfl
  | cons m ms ih =>
    simp only [List.map_cons, decodeMessages, decodeMessage_encodeMessage, ih]

theorem decodeChat_encodeChat (c : Chat) :
    decodeChat (encodeChat c) = some c := by
  cases c with
  | mk id title messages mode userPrompt createdAt updatedAt modelName =>
    simp [decodeChat, encodeChat, jget, List.find?, decodeMessages_encode,
      decodeStr, decodeNat, decodeMode_modeString, Option.bind]

theorem decodeChatEntries_encode (cs : List (String × Chat)) :
    decodeChatEntries (cs.map (fun p => (p.1, encodeChat p.2))) = some cs := by
  induction cs with
  | nil => rfl
  | cons p ps ih =>
    simp only [List.map_cons, decodeChatEntries, decodeChat_encodeChat p.2, ih]

theorem decodeChatHistory_encode (h : ChatHistory) :
    decodeChatHistory (encodeChatHistory h) = some h := by
  cases h with
  | mk chats currentChatId =>
    cases currentChatId <;>
      simp [decodeChatHistory, encodeChatHistory, jget, List.find?,
        decodeChatEntries_encode, Option.bind]

/-! ## Helper lemmas about the repository operations -/

theorem find_setChatEntry (chats : List (String × Chat)) (cid : String) (c : Chat)
    (hp : (chats.find? (fun p => p.1 = cid)).isSome) :
    ((setChatEntry chats cid c).find? (fun p => p.1 = cid)).map Prod.snd = some c := by
  induction chats with
  | nil => simp [List.find?] at hp
  | cons p ps ih =>
    by_cases hpc : p.1 = cid
    · simp [setChatEntry, List.find?, hpc]
    · have hp' : (ps.find? (fun q => q.1 = cid)).isSome := by
        simpa [List.find?, hpc] using hp
      simpa [setChatEntry, List.find?, hpc] using ih hp'

theorem findChat_setChatEntry (h : ChatHistory) (cid : String) (chat c : Chat)
    (hc : findChat h cid = some chat) :
    findChat { h with chats := setChatEntry h.chats cid c } cid = some c := by
  have hp : (h.chats.find? (fun p => p.1 = cid)).isSome := by
    unfold findChat at hc
    cases hfind : h.chats.find? (fun p => p.1 = cid) <;> rw [hfind] at hc <;> simp_all
  exact find_setChatEntry h.chats cid c hp

theorem addMessage_spec (h : ChatHistory) (chat : Chat) (cid : String) (r : Role)
    (content nid : String) (ts : Nat) (hc : findChat h cid = some chat) :
    addMessage h cid r content nid ts =
      .ok ({ id := nid, role := r, content := content, timestamp := ts },
           { h with chats := setChatEntry h.chats cid (addedChat chat r content nid ts) }) := by
  unfold addMessage
  rw [hc]

theorem addedChat_messages (chat : Chat) (r : Role) (content nid : String) (ts : Nat) :
    (addedChat chat r content nid ts).messages =
      { id := nid, role := r, content := content, timestamp := ts } :: chat.messages := rfl

theorem addedChat_userPrompt (chat : Chat) (r : Role) (content nid : String) (ts : Nat) :
    (addedChat chat r content nid ts).userPrompt = chat.userPrompt := rfl

theorem addedChat_title_assistant (chat : Chat) (content nid : String) (ts : Nat) :
    (addedChat chat .assistant content nid ts).title = chat.title := by
  unfold addedChat
  simp

theorem addedChat_title_of_long (chat : Chat) (r : Role) (content nid : String) (ts : Nat)
    (hlen : 2 ≤ chat.messages.length) :
    (addedChat chat r content nid ts).title = chat.title := by
  simp only [addedChat]
  rw [if_neg]
  rintro ⟨-, -, hle⟩
  simp only [List.length_cons] at hle
  omega

theorem findChat_filter_ne (chats : List (String × Chat)) (cid k : String) (hk : k ≠ cid)
    (hp : ((chats.find? (fun p => p.1 = k)).isSome)) :
    ((chats.filter (fun p => p.1 ≠ cid)).find? (fun p => p.1 = k)).isSome := by
  induction chats with
  | nil => simp [List.find?] at hp
  | cons p ps ih =>
    by_cases hpk : p.1 = k
    · have hpcid : ¬p.1 = cid := by rw [hpk]; exact hk
      simp only [List.filter_cons]
      rw [if_pos (by simp [hpcid])]
      simp [List.find?, hpk]
    · have hp' : (ps.find? (fun q => q.1 = k)).isSome := by
        simpa [List.find?, hpk] using hp
      by_cases hpcid : p.1 = cid
      · simpa [List.filter_cons, hpcid] using ih hp'
      · simpa [List.filter_cons, hpcid, List.find?, hpk] using ih hp'

theorem findChat_isSome (h : ChatHistory) (k : String) :
    (findChat h k).isSome = (h.chats.find? (fun p => p.1 = k)).isSome := by
  unfold findChat
  cases h.chats.find? (fun p => p.1 = k) <;> rfl

theorem currentOk_iff (h : ChatHistory) :
    currentOk h ↔ ∀ k, h.currentChatId = some k → (findChat h k).isSome := by
  unfold currentOk
  cases h.currentChatId <;> simp

/-! ## Streaming accumulator lemmas -/

theorem strFoldlAppend (a : String) (l : List String) :
    l.foldl (fun r s => r ++ s) a = a ++ l.foldl (fun r s => r ++ s) "" := by
  induction l generalizing a with
  | nil => simp only [List.foldl_nil]; rw [String.append_empty]
  | cons s l ih =>
    simp only [List.foldl_cons]
    rw [ih (a ++ s), ih ("" ++ s), String.empty_append, String.append_assoc]

theorem stringJoin_cons (t : String) (ts : List String) :
    String.join (t :: ts) = t ++ String.join ts := by
  simp only [String.join, List.foldl_cons]
  rw [strFoldlAppend ("" ++ t), String.empty_append]

theorem foldl_onTokenStep (ts : List String) :
    ∀ st : StreamState,
      (ts.foldl onTokenStep st).streamedContent = st.streamedContent ++ String.join ts ∧
      (ts.foldl onTokenStep st).streamedCount = st.streamedCount + ts.length := by
  induction ts with
  | nil =>
    intro st
    refine ⟨?_, by simp⟩
    simp only [List.foldl_nil, String.join, List.foldl_nil]
    rw [String.append_empty]
  | cons t ts ih =>
    intro st
    obtain ⟨h1, h2⟩ := ih (onTokenStep st t)
    refine ⟨?_, ?_⟩
    · rw [List.foldl_cons, h1, stringJoin_cons]
      show st.streamedContent ++ t ++ String.join ts = st.streamedContent ++ (t ++ String.join ts)
      rw [String.append_assoc]
    · rw [List.foldl_cons, h2]
      show st.streamedCount + 1 + ts.length = st.streamedCount + (ts.length + 1)
      omega

/-! ## Claim theorems -/

/-- C9: for every `ChatHistory` document `h` (well-formed by construction),
`saveChatHistory h` followed by `getChatHistory` returns a document equal to
`h` — serialization to the key-value substrate and parsing back is a lossless
round trip. -/
theorem save_load_roundtrip (h : ChatHistory) :
    getChatHistory (saveChatHistory h) = h := by
  simp [getChatHistory, saveChatHistory, decodeChatHistory_encode]

/-- C2 counterexample: on a store with no chats at all, `deleteMessage` on the
unknown chat id `"c1"` throws (`Chat with id c1 not found`) instead of being a
silent no-op, refuting "it does not throw". The stored blob is untouched. -/
theorem deleteMessage_missing_chat_cex :
    deleteMessageStore none "c1" "m1" = (Except.error (RepoError.notFound "c1"), none) ∧
    Except.error (RepoError.notFound "c1") ≠ (Except.ok () : Except RepoError Unit) := by
  refine ⟨rfl, fun hcontra => ?_⟩
  exact Except.noConfusion hcontra

/-- C2 (amended): for every stored blob whose parsed document lacks `chatId`,
`deleteMessage(chatId, messageId)` throws `notFound` — the same discipline as
`addMessage` — and, because the throw fires before any save, the persisted
blob is left unchanged. -/
theorem deleteMessage_missing_chat_throws (store : Option JVal) (cid mid : String)
    (habs : findChat (getChatHistory store) cid = none) :
    deleteMessageStore store cid mid = (Except.error (RepoError.notFound cid), store) := by
  unfold deleteMessageStore deleteMessage
  rw [habs]

/-- Witness for `deleteMessage_missing_chat_throws` at the empty store. -/
theorem deleteMessage_missing_chat_throws_witness :
    deleteMessageStore none "c9" "m9" = (Except.error (RepoError.notFound "c9"), none) :=
  deleteMessage_missing_chat_throws none "c9" "m9" rfl

/-- C10: for every document lacking `chatId`, `updateUserPrompt` hits the
unguarded-access branch (a `TypeError`, the property write on `undefined`),
whereas every other repository operation either throws `notFound`
(`deleteMessage`, `addMessage`), silently no-ops (`deleteChat`,
`updateChatTitle`, `setCurrentChat`) or returns `null` (`getChat`):
the missing-chat crash branch is reachable at the public interface. -/
theorem updateUserPrompt_unguarded_missing_chat (h : ChatHistory) (cid prompt : String)
    (habs : findChat h cid = none) :
    updateUserPrompt h cid prompt = .error RepoError.typeError ∧
    (∀ mid, deleteMessage h cid mid = .error (RepoError.notFound cid)) ∧
    (∀ r content nid ts, addMessage h cid r content nid ts = .error (RepoError.notFound cid)) ∧
    deleteChat h cid = h ∧
    (∀ t, updateChatTitle h cid t = h) ∧
    setCurrentChat h cid = h ∧
    getChat h cid = none := by
  refine ⟨?_, fun mid => ?_, fun r content nid ts => ?_, ?_, fun t => ?_, ?_, ?_⟩
  · unfold updateUserPrompt; rw [habs]
  · unfold deleteMessage; rw [habs]
  · unfold addMessage; rw [habs]
  · unfold deleteChat; rw [habs]
  · unfold updateChatTitle; rw [habs]
  · unfold setCurrentChat; rw [habs]
  · exact habs

/-- Witness for `updateUserPrompt_unguarded_missing_chat` at the empty
document. -/
theorem updateUserPrompt_unguarded_missing_chat_witness :
    updateUserPrompt emptyHistory "c7" "be brief" = .error RepoError.typeError ∧
    (∀ mid, deleteMessage emptyHistory "c7" mid = .error (RepoError.notFound "c7")) ∧
    (∀ r content nid ts,
      addMessage emptyHistory "c7" r content nid ts = .error (RepoError.notFound "c7")) ∧
    deleteChat emptyHistory "c7" = emptyHistory ∧
    (∀ t, updateChatTitle emptyHistory "c7" t = emptyHistory) ∧
    setCurrentChat emptyHistory "c7" = emptyHistory ∧
    getChat emptyHistory "c7" = none :=
  updateUserPrompt_unguarded_missing_chat emptyHistory "c7" "be brief" rfl

/-- C6: in `singleInteractive` mode with a configured `userPrompt`, the prompt
sequence handed to the engine is exactly three entries — the system prompt,
one user entry carrying `chat.userPrompt`, and one user entry carrying the new
user message — for every chat, regardless of its prior `messages`. -/
theorem single_interactive_prompt_three_entries (chat : Chat)
    (systemPrompt userMessage : String) (_hp : chat.userPrompt ≠ "") :
    formatMessages ChatMode.singleInteractive systemPrompt chat userMessage =
      [{ role := PromptRole.system, content := systemPrompt },
       { role := PromptRole.user, content := chat.userPrompt },
       { role := PromptRole.user, content := userMessage }] := rfl

/-- Witness for `single_interactive_prompt_three_entries` on a chat that
already holds two prior turns. -/
theorem single_interactive_prompt_three_entries_witness :
    formatMessages ChatMode.singleInteractive "You are helpful" demoSingleChat "Good morning" =
      [{ role := PromptRole.system, content := "You are helpful" },
       { role := PromptRole.user, content := "Translate to French" },
       { role := PromptRole.user, content := "Good morning" }] :=
  single_interactive_prompt_three_entries demoSingleChat "You are helpful" "Good morning"
    (by decide)

/-- C7: for every token stream of one generation run, the accumulator after
the last token equals the concatenation of all emitted tokens in order (and
the counter equals the number of tokens), even though only every 10th token
pushes a visible view-state update — the throttle never drops a token. -/
theorem stream_accumulator_no_token_loss (tokens : List String) :
    (runStream tokens).streamedContent = String.join tokens ∧
    (runStream tokens).streamedCount = tokens.length := by
  obtain ⟨h1, h2⟩ := foldl_onTokenStep tokens
    { streamedContent := "", streamedCount := 0, viewUpdates := [] }
  refine ⟨?_, by simpa using h2⟩
  rw [runStream, h1, String.empty_append]

/-- C3 counterexample: on a fresh conversation-mode chat (empty `userPrompt`),
a first user message `"Hello there"` sets the title, but a second user message
sent directly afterwards (the chat then holds 2 messages, and
`chat.messages.length <= 2` still passes) re-derives the title to `"Bye"` —
the claim's "leaves the title unchanged" fails. -/
theorem second_user_message_title_cex :
    (match addMessage demoConvHistory "c1" Role.user "Hello there" "i1" 1 with
     | .ok (_, h1) =>
       match addMessage h1 "c1" Role.user "Bye" "i2" 2 with
       | .ok (_, h2) => (getChat h2 "c1").map Chat.title
       | .error _ => none
     | .error _ => none) = some "Bye" ∧
    (some "Bye" : Option String) ≠ some "Hello there" :=
  ⟨rfl, by decide⟩

/-- C3 (amended): on a conversation-mode chat with empty `userPrompt` and no
messages, the first user message `"Hello there"` becomes the title; the title
is still `"Hello there"` after an assistant reply and a subsequent second user
message (which then lands as the 3rd message, failing the `≤ 2` length check).
A second user message sent with no intervening assistant reply instead
re-derives the title (see the counterexample). -/
theorem title_derivation_amended (h : ChatHistory) (cid : String) (chat : Chat)
    (reply second i1 i2 i3 : String) (t1 t2 t3 : Nat)
    (hc : findChat h cid = some chat) (hup : chat.userPrompt = "")
    (hms : chat.messages = []) :
    ∃ m1 h1 m2 h2 m3 h3,
      addMessage h cid Role.user "Hello there" i1 t1 = .ok (m1, h1) ∧
      (getChat h1 cid).map Chat.title = some "Hello there" ∧
      addMessage h1 cid Role.assistant reply i2 t2 = .ok (m2, h2) ∧
      addMessage h2 cid Role.user second i3 t3 = .ok (m3, h3) ∧
      (getChat h3 cid).map Chat.title = some "Hello there" := by
  obtain ⟨c1, hc1⟩ : ∃ c1, addedChat chat Role.user "Hello there" i1 t1 = c1 := ⟨_, rfl⟩
  have ht1 : c1.title = "Hello there" := by
    rw [← hc1]
    simp [addedChat, hup, hms]
  have hup1 : c1.userPrompt = "" := by rw [← hc1, addedChat_userPrompt, hup]
  have hm1 : c1.messages =
      [{ id := i1, role := Role.user, content := "Hello there", timestamp := t1 }] := by
    rw [← hc1, addedChat_messages, hms]
  have e1 : addMessage h cid Role.user "Hello there" i1 t1 =
      .ok ({ id := i1, role := Role.user, content := "Hello there", timestamp := t1 },
           { h with chats := setChatEntry h.chats cid c1 }) := by
    rw [addMessage_spec h chat cid Role.user "Hello there" i1 t1 hc, hc1]
  have hf1 : findChat { h with chats := setChatEntry h.chats cid c1 } cid = some c1 :=
    findChat_setChatEntry h cid chat c1 hc
  obtain ⟨c2, hc2⟩ : ∃ c2, addedChat c1 Role.assistant reply i2 t2 = c2 := ⟨_, rfl⟩
  have ht2 : c2.title = "Hello there" := by rw [← hc2, addedChat_title_assistant, ht1]
  have hm2 : 2 ≤ c2.messages.length := by
    rw [← hc2, addedChat_messages, hm1]
    simp
  have e2 : addMessage { h with chats := setChatEntry h.chats cid c1 } cid
        Role.assistant reply i2 t2 =
      .ok ({ id := i2, role := Role.assistant, content := reply, timestamp := t2 },
           { h with chats :=
              setChatEntry (setChatEntry h.chats cid c1) cid c2 }) := by
    rw [addMessage_spec _ c1 cid Role.assistant reply i2 t2 hf1, hc2]
  have hf2 : findChat { h with chats := setChatEntry (setChatEntry h.chats cid c1) cid c2 } cid
      = some c2 :=
    findChat_setChatEntry _ cid c1 c2 hf1
  obtain ⟨c3, hc3⟩ : ∃ c3, addedChat c2 Role.user second i3 t3 = c3 := ⟨_, rfl⟩
  have ht3 : c3.title = "Hello there" := by
    rw [← hc3, addedChat_title_of_long c2 Role.user second i3 t3 hm2, ht2]
  have e3 : addMessage { h with chats := setChatEntry (setChatEntry h.chats cid c1) cid c2 } cid
        Role.user second i3 t3 =
      .ok ({ id := i3, role := Role.user, content := second, timestamp := t3 },
           { h with chats :=
              setChatEntry (setChatEntry (setChatEntry h.chats cid c1) cid c2) cid c3 }) := by
    rw [addMessage_spec _ c2 cid Role.user second i3 t3 hf2, hc3]
  have hf3 : findChat
      { h with chats := setChatEntry (setChatEntry (setChatEntry h.chats cid c1) cid c2) cid c3 }
      cid = some c3 :=
    findChat_setChatEntry _ cid c2 c3 hf2
  refine ⟨_, _, _, _, _, _, e1, ?_, e2, e3, ?_⟩
  · show (findChat { h with chats := setChatEntry h.chats cid c1 } cid).map Chat.title
      = some "Hello there"
    rw [hf1]
    simpa using ht1
  · show (findChat
        { h with chats := setChatEntry (setChatEntry (setChatEntry h.chats cid c1) cid c2) cid c3 }
        cid).map Chat.title = some "Hello there"
    rw [hf3]
    simpa using ht3

/-- Witness for `title_derivation_amended` on a freshly created
conversation-mode chat. -/
theorem title_derivation_amended_witness :
    ∃ m1 h1 m2 h2 m3 h3,
      addMessage demoConvHistory "c1" Role.user "Hello there" "i1" 1 = .ok (m1, h1) ∧
      (getChat h1 "c1").map Chat.title = some "Hello there" ∧
      addMessage h1 "c1" Role.assistant "Nice!" "i2" 2 = .ok (m2, h2) ∧
      addMessage h2 "c1" Role.user "Bye" "i3" 3 = .ok (m3, h3) ∧
      (getChat h3 "c1").map Chat.title = some "Hello there" :=
  title_derivation_amended demoConvHistory "c1" demoConvChat "Nice!" "Bye" "i1" "i2" "i3" 1 2 3
    rfl rfl rfl

/-- C5: for every sequence of `addMessage` calls on one chat (arbitrary roles,
contents, ids and — in particular — arbitrary, possibly identical, timestamp
values), `getChat` afterwards lists the messages strictly newest-first by
insertion order: the resulting list is the reverse of the call order prepended
to the prior messages, so the most recently added message sits at index 0. -/
theorem addMessage_newest_first (calls : List (Role × String × String × Nat))
    (h : ChatHistory) (chatId : String) (chat : Chat)
    (hc : findChat h chatId = some chat) :
    ∃ h' chat', addMessageSeq chatId h calls = .ok h' ∧
      getChat h' chatId = some chat' ∧
      chat'.messages = (calls.map callMessage).reverse ++ chat.messages := by
  induction calls generalizing h chat with
  | nil => exact ⟨h, chat, rfl, hc, by simp⟩
  | cons call rest ih =>
    obtain ⟨r, content, i, t⟩ := call
    have e1 := addMessage_spec h chat chatId r content i t hc
    have hf1 := findChat_setChatEntry h chatId chat (addedChat chat r content i t) hc
    obtain ⟨h', chat', hseq, hget, hmsgs⟩ := ih _ _ hf1
    refine ⟨h', chat', ?_, hget, ?_⟩
    · simp only [addMessageSeq]
      rw [e1]
      exact hseq
    · rw [hmsgs, addedChat_messages]
      simp [callMessage, List.reverse_cons, List.append_assoc]

/-- Witness for `addMessage_newest_first`: three calls carrying the same
millisecond timestamp still land newest-first. -/
theorem addMessage_newest_first_witness :
    ∃ h' chat', addMessageSeq "c1" demoConvHistory demoCalls = .ok h' ∧
      getChat h' "c1" = some chat' ∧
      chat'.messages = (demoCalls.map callMessage).reverse ++ demoConvChat.messages :=
  addMessage_newest_first demoCalls demoConvHistory "c1" demoConvChat rfl

/-- C8: starting from a document satisfying the Data-Model invariant
(`currentChatId` null or an existing key), every `deleteChat(chatId)` call
preserves the invariant; deleting a non-current chat leaves `currentChatId`
unchanged; and deleting the chat referenced by `currentChatId` reassigns it to
some other existing chat id, or to null when no chats remain. -/
theorem deleteChat_currentChatId_invariant (h : ChatHistory) (cid : String)
    (hinv : currentOk h) :
    currentOk (deleteChat h cid) ∧
    (h.currentChatId ≠ some cid → (deleteChat h cid).currentChatId = h.currentChatId) ∧
    (h.currentChatId = some cid → (findChat h cid).isSome →
      ((deleteChat h cid).chats = [] ∧ (deleteChat h cid).currentChatId = none) ∨
      (∃ k, (deleteChat h cid).currentChatId = some k ∧ k ≠ cid ∧
        (findChat (deleteChat h cid) k).isSome)) := by
  cases hf : findChat h cid with
  | none =>
    have hd : deleteChat h cid = h := by unfold deleteChat; rw [hf]
    rw [hd]
    refine ⟨hinv, fun _ => rfl, fun _ hsome => ?_⟩
    simp at hsome
  | some c =>
    have hd : deleteChat h cid =
        { chats := h.chats.filter (fun p => p.1 ≠ cid),
          currentChatId :=
            if h.currentChatId = some cid then
              match h.chats.filter (fun p => p.1 ≠ cid) with
              | [] => none
              | p :: _ => some p.1
            else h.currentChatId } := by
      unfold deleteChat; rw [hf]
    by_cases hcur : h.currentChatId = some cid
    · cases hl : h.chats.filter (fun p => p.1 ≠ cid) with
      | nil =>
        have hd' : deleteChat h cid = { chats := [], currentChatId := none } := by
          rw [hd, if_pos hcur, hl]
        rw [hd']
        exact ⟨trivial, fun hne => absurd hcur hne, fun _ _ => Or.inl ⟨rfl, rfl⟩⟩
      | cons p rest =>
        have hpne : p.1 ≠ cid := by
          have hm : p ∈ h.chats.filter (fun q => q.1 ≠ cid) := by
            rw [hl]; exact List.mem_cons_self p rest
          simpa using List.of_mem_filter hm
        have hd' : deleteChat h cid = { chats := p :: rest, currentChatId := some p.1 } := by
          rw [hd, if_pos hcur, hl]
        have hfind : (findChat { chats := p :: rest, currentChatId := some p.1 } p.1).isSome := by
          simp [findChat, List.find?]
        rw [hd']
        exact ⟨hfind, fun hne => absurd hcur hne, fun _ _ => Or.inr ⟨p.1, rfl, hpne, hfind⟩⟩
    · have hd' : deleteChat h cid =
          { chats := h.chats.filter (fun q => q.1 ≠ cid), currentChatId := h.currentChatId } := by
        rw [hd, if_neg hcur]
      rw [hd']
      refine ⟨?_, fun _ => rfl, fun heq _ => absurd heq hcur⟩
      rw [currentOk_iff]
      intro k hk
      have hkne : k ≠ cid := by
        rintro rfl
        exact hcur hk
      have hks : (findChat h k).isSome := (currentOk_iff h).mp hinv k hk
      rw [findChat_isSome] at hks ⊢
      exact findChat_filter_ne h.chats cid k hkne hks

/-- Witness for `deleteChat_currentChatId_invariant`: deleting the current
chat of a two-chat document. -/
theorem deleteChat_currentChatId_invariant_witness :
    currentOk (deleteChat demoTwoChats "c1") ∧
    (demoTwoChats.currentChatId ≠ some "c1" →
      (deleteChat demoTwoChats "c1").currentChatId = demoTwoChats.currentChatId) ∧
    (demoTwoChats.currentChatId = some "c1" → (findChat demoTwoChats "c1").isSome →
      ((deleteChat demoTwoChats "c1").chats = [] ∧
        (deleteChat demoTwoChats "c1").currentChatId = none) ∨
      (∃ k, (deleteChat demoTwoChats "c1").currentChatId = some k ∧ k ≠ "c1" ∧
        (findChat (deleteChat demoTwoChats "c1") k).isSome)) :=
  deleteChat_currentChatId_invariant demoTwoChats "c1" (by decide)

/-- C1 counterexample: a run cancelled mid-generation (two tokens delivered,
then the abort-signalled engine resolves `completion` with the partial text
`"Hel"`) ends with the stored chat holding contents `["Hel", "Hi"]`
(newest-first) — not `["Hi"]`, the list right after the user message was
persisted: `handleSend` has no cancellation branch and persists the resolved
partial text through the normal completion path. -/
theorem cancel_persists_partial_cex :
    (match handleSendRun demoConvHistory [] "c1" "Hi"
        { tokens := ["He", "l"], result := Except.ok "Hel" } "u1" "a1" 5 6 7 with
     | .ok (h2, _) => (getChat h2 "c1").map (fun c => c.messages.map Message.content)
     | .error _ => none) = some ["Hel", "Hi"] ∧
    (some ["Hel", "Hi"] : Option (List String)) ≠ some ["Hi"] :=
  ⟨rfl, by decide⟩

/-- C1 (amended): a cancelled generation run makes `generateResponse` resolve
with the text accumulated up to the stop point (the engine contract: stopping
is not an error), and `handleSend` then persists that partial text — trimmed —
as an ordinary assistant message. For every chat present in the store, the
stored message list after a run that resolves with `text` (cancelled or not)
is the trimmed assistant message, then the user message, then the prior
messages — never just the post-user-message list. -/
theorem cancelled_run_persists_partial (h : ChatHistory) (view : List Message)
    (cid : String) (chat : Chat) (um text : String) (tokens : List String)
    (uid aid : String) (t1 tns t2 : Nat) (hc : findChat h cid = some chat) :
    ∃ h2 view2,
      handleSendRun h view cid um { tokens := tokens, result := Except.ok text }
          uid aid t1 tns t2 = .ok (h2, view2) ∧
      ∃ chat2, getChat h2 cid = some chat2 ∧
        chat2.messages =
          { id := aid, role := Role.assistant, content := jsTrim text, timestamp := t2 } ::
          { id := uid, role := Role.user, content := um, timestamp := t1 } :: chat.messages := by
  have e1 := addMessage_spec h chat cid Role.user um uid t1 hc
  have hf1 := findChat_setChatEntry h cid chat (addedChat chat Role.user um uid t1) hc
  have e2 := addMessage_spec _ (addedChat chat Role.user um uid t1) cid Role.assistant
    (jsTrim text) aid t2 hf1
  have hf2 := findChat_setChatEntry _ cid (addedChat chat Role.user um uid t1)
    (addedChat (addedChat chat Role.user um uid t1) Role.assistant (jsTrim text) aid t2) hf1
  unfold handleSendRun
  rw [e1]
  dsimp only
  rw [e2]
  exact ⟨_, _, rfl, _, hf2, by rw [addedChat_messages, addedChat_messages]⟩

/-- Witness for `cancelled_run_persists_partial` on a fresh chat. -/
theorem cancelled_run_persists_partial_witness :
    ∃ h2 view2,
      handleSendRun demoConvHistory [] "c1" "Hi"
          { tokens := ["He", "l"], result := Except.ok "Hel" } "u2" "a2" 5 6 7 =
        .ok (h2, view2) ∧
      ∃ chat2, getChat h2 "c1" = some chat2 ∧
        chat2.messages =
          { id := "a2", role := Role.assistant, content := jsTrim "Hel", timestamp := 7 } ::
          { id := "u2", role := Role.user, content := "Hi", timestamp := 5 } ::
          demoConvChat.messages :=
  cancelled_run_persists_partial demoConvHistory [] "c1" demoConvChat "Hi" "Hel"
    ["He", "l"] "u2" "a2" 5 6 7 rfl

/-- C4 counterexample: a run that errors after ten streamed tokens. The
persisted chat ends with message ids `["a1", "u1"]` (the generic error reply
then the user message), while the in-memory view-state still holds
`["streaming_id", "u1"]` — the streaming placeholder survives and the error
message never reaches the view, because the catch block persists but does not
reload: view-state ≠ persisted chat. -/
theorem error_path_view_state_cex :
    (match handleSendRun demoConvHistory [] "c1" "Hi"
        { tokens := demoTokens, result := Except.error () } "u1" "a1" 1 2 3 with
     | .ok (h2, view2) =>
       some (view2.map Message.id, (getChat h2 "c1").map (fun c => c.messages.map Message.id))
     | .error _ => none) =
      some (["streaming_id", "u1"], some ["a1", "u1"]) ∧
    (["streaming_id", "u1"] : List String) ≠ ["a1", "u1"] :=
  ⟨rfl, by decide⟩

/-- C4 (amended): on an engine/runtime error the coordinator does persist the
generic assistant-role error reply (the transcript always records the turn),
but it does not reload the chat from the store: the view-state after the run
is exactly what the streaming updates left — the new user message, prefixed by
a streaming placeholder whenever at least one visible update fired — so the
in-memory view need not equal the persisted chat. -/
theorem error_path_persists_no_reload (h : ChatHistory) (view : List Message)
    (cid : String) (chat : Chat) (um : String) (tokens : List String)
    (uid aid : String) (t1 tns t2 : Nat) (hc : findChat h cid = some chat) :
    ∃ h2,
      handleSendRun h view cid um { tokens := tokens, result := Except.error () }
          uid aid t1 tns t2 =
        .ok (h2,
          applyStreamUpdates
            ({ id := uid, role := Role.user, content := um, timestamp := t1 } :: view)
            (runStream tokens).viewUpdates tns) ∧
      ∃ chat2, getChat h2 cid = some chat2 ∧
        chat2.messages =
          { id := aid, role := Role.assistant, content := errorReplyText, timestamp := t2 } ::
          { id := uid, role := Role.user, content := um, timestamp := t1 } :: chat.messages := by
  have e1 := addMessage_spec h chat cid Role.user um uid t1 hc
  have hf1 := findChat_setChatEntry h cid chat (addedChat chat Role.user um uid t1) hc
  have e2 := addMessage_spec _ (addedChat chat Role.user um uid t1) cid Role.assistant
    errorReplyText aid t2 hf1
  have hf2 := findChat_setChatEntry _ cid (addedChat chat Role.user um uid t1)
    (addedChat (addedChat chat Role.user um uid t1) Role.assistant errorReplyText aid t2) hf1
  unfold handleSendRun
  rw [e1]
  dsimp only
  rw [e2]
  exact ⟨_, rfl, _, hf2, by rw [addedChat_messages, addedChat_messages]⟩

/-- Witness for `error_path_persists_no_reload` on a fresh chat with ten
streamed tokens. -/
theorem error_path_persists_no_reload_witness :
    ∃ h2,
      handleSendRun demoConvHistory [] "c1" "Hi"
          { tokens := demoTokens, result := Except.error () } "u3" "a3" 1 2 3 =
        .ok (h2,
          applyStreamUpdates
            ({ id := "u3", role := Role.user, content := "Hi", timestamp := 1 } :: [])
            (runStream demoTokens).viewUpdates 2) ∧
      ∃ chat2, getChat h2 "c1" = some chat2 ∧
        chat2.messages =
          { id := "a3", role := Role.assistant, content := errorReplyText, timestamp := 3 } ::
          { id := "u3", role := Role.user, content := "Hi", timestamp := 1 } ::
          demoConvChat.messages :=
  error_path_persists_no_reload demoConvHistory [] "c1" demoConvChat "Hi" demoTokens
    "u3" "a3" 1 2 3 rfl

end LlamaChat
